import Mathlib

/-
Shallow embedding of the sodEx browser extension's session/authentication
coordinator (src/background/background.js, class APIService) and of the
duplicate APIService used by the popup/options pages (src/utils, here
src/unnamed/part_001), together with the site-record freshness check
(isLastCrawledFresh).

Timestamps are modelled as integers (milliseconds since epoch, as produced
by Date arithmetic).  The chrome.storage.local keys the code uses are
modelled as a record of three optional slots (authData, sessionToken,
browserSessionData).  Remote endpoints are modelled by a FetchOutcome per
endpoint, supplied by an environment: a fetch either yields an HTTP
response (status plus parsed JSON body) or throws (network exception).
-/

namespace SodEx

/-! ## Site record freshness (part_001, isLastCrawledFresh) -/

/-- Embedding of `isLastCrawledFresh(lastCrawledAt)` from the popup code:
`none` models a missing/falsy `lastCrawledAt`; otherwise the age in hours
is computed as `(now - crawledDate) / (1000*60*60)` and the record is
fresh when that is `< 24`. -/
def isLastCrawledFresh (lastCrawledAt : Option Int) (now : Int) : Bool :=
  match lastCrawledAt with
  | none => false
  | some t =>
    let diffHours : ℚ := (((now : ℚ) - (t : ℚ)) / (1000 * 60 * 60))
    decide (diffHours < 24)

/-! ## Single-flight guard of checkAuthentication (background.js 15-40)

The guard consists of the boolean `authCheckInProgress` and the array
`authCheckQueue` of pending resolvers.  A call that finds the flag set
pushes its resolver onto the queue; otherwise it sets the flag and starts
`_performAuthCheck`.  When the in-flight check completes with a result,
the queue is drained front-to-back (`shift`), each resolver receiving that
same result, and the initiating call returns it. -/

structure CoordState where
  authCheckInProgress : Bool
  authCheckQueue : List Nat
  deriving DecidableEq

/-- One call to `checkAuthentication` by caller `c`: returns the new guard
state and whether this call started an underlying `_performAuthCheck`. -/
def authCallStep (s : CoordState) (c : Nat) : CoordState × Bool :=
  if s.authCheckInProgress then
    ({ authCheckInProgress := true, authCheckQueue := s.authCheckQueue ++ [c] }, false)
  else
    ({ authCheckInProgress := true, authCheckQueue := s.authCheckQueue }, true)

/-- A burst of calls arriving while no result has been produced yet;
returns the final guard state and how many underlying checks started. -/
def arriveAll : CoordState → List Nat → CoordState × Nat
  | s, [] => (s, 0)
  | s, c :: cs =>
    let step := authCallStep s c
    let rest := arriveAll step.1 cs
    (rest.1, (if step.2 then 1 else 0) + rest.2)

/-- Completion of the in-flight check with result `r`: the queue is
drained in FIFO order, every queued caller resolving with `r`. -/
def authCompleteStep {α : Type} (s : CoordState) (r : α) : CoordState × List (Nat × α) :=
  ({ authCheckInProgress := false, authCheckQueue := [] },
    s.authCheckQueue.map (fun c => (c, r)))

/-- Scenario of the single-flight claim: callers `1, …, n` all invoke
`checkAuthentication` before the first resolves, then the in-flight check
completes with `r`.  Returns (number of underlying checks started,
resolutions of the queued callers in order, resolution of the initiator). -/
def runConcurrentChecks (n : Nat) (r : α) : Nat × List (Nat × α) × (Nat × α) :=
  let arrival := arriveAll { authCheckInProgress := false, authCheckQueue := [] } (List.range' 1 n)
  let completion := authCompleteStep arrival.1 r
  (arrival.2, completion.2, (1, r))

/-! ## Data model: persisted storage keys -/

/-- Persisted auth record, storage key `authData` (background.js 296-312).
`expires_at := none` models the falsy empty-string default; `some t` is a
parseable timestamp in milliseconds.  `last_check` likewise. -/
structure AuthData where
  auth_token : String
  user_id : String
  expires_at : Option Int
  is_authenticated : Bool
  last_check : Option Int
  username : String
  deriving DecidableEq

/-- Default record returned by `getAuthData` when the `authData` key is
absent (background.js 300-307; the identical default object is used by the
popup copy). -/
def defaultAuthData : AuthData :=
  { auth_token := "", user_id := "", expires_at := none,
    is_authenticated := false, last_check := none, username := "" }

/-- Locally persisted browser-session object, storage key
`browserSessionData`.  Every field is optional: the object starts as `{}`
and fields are added by spread-merge updates. -/
structure BrowserSessionData where
  authenticated : Option Bool := none
  session_token : Option String := none
  created_at : Option String := none
  last_activity : Option String := none
  is_active : Option Bool := none
  user_agent : Option String := none
  ip_address : Option String := none
  extension_version : Option String := none
  browser_fingerprint : Option String := none
  deriving DecidableEq

/-- JS spread merge `{...cur, ...u}`: a field present in the update
overrides the current value. -/
def BrowserSessionData.merge (cur u : BrowserSessionData) : BrowserSessionData :=
  { authenticated := u.authenticated <|> cur.authenticated,
    session_token := u.session_token <|> cur.session_token,
    created_at := u.created_at <|> cur.created_at,
    last_activity := u.last_activity <|> cur.last_activity,
    is_active := u.is_active <|> cur.is_active,
    user_agent := u.user_agent <|> cur.user_agent,
    ip_address := u.ip_address <|> cur.ip_address,
    extension_version := u.extension_version <|> cur.extension_version,
    browser_fingerprint := u.browser_fingerprint <|> cur.browser_fingerprint }

/-- The chrome.storage.local keys the coordinator reads and writes. -/
structure Store where
  authData : Option AuthData
  sessionToken : Option String
  browserSessionData : Option BrowserSessionData
  deriving DecidableEq

/-- Service state: the storage keys plus whether the periodic
revalidation timer (`sessionValidationInterval`) is running. -/
structure SvcState where
  store : Store
  timerRunning : Bool
  deriving DecidableEq

/-! ## HTTP layer -/

/-- A fetch response: HTTP status plus the parsed JSON body.  (The real
Response exposes the body through `json()`; claims only need the parsed
value.) -/
structure HttpResp (β : Type) where
  status : Nat
  body : β
  deriving DecidableEq

/-- JS `response.ok`: status in the range 200-299. -/
def HttpResp.ok {β : Type} (r : HttpResp β) : Bool :=
  decide (200 ≤ r.status) && decide (r.status < 300)

/-- JS property access `response.authenticated` on a fetch Response
object: the Response API defines no such property, so the access yields
`undefined` (modelled as `none`), which is falsy.  (background.js 156
tests this on the raw response rather than on the parsed `result`.) -/
def HttpResp.authenticatedProp {β : Type} (_ : HttpResp β) : Option Bool := none

/-- Outcome of one fetch: a response, or a thrown network exception. -/
inductive FetchOutcome (β : Type) where
  | resp (r : HttpResp β)
  | thrown
  deriving DecidableEq

/-- Parsed body of `GET is_authenticated`. -/
structure IsAuthBody where
  authenticated : Bool
  user : String
  deriving DecidableEq

/-- Parsed body of `GET auth_data`. -/
structure AuthDataBody where
  auth_token : String
  user_id : String
  expires_at : Option Int
  username : String
  deriving DecidableEq

/-- Parsed body of `POST sessions/validate`. -/
structure ValidateBody where
  authenticated : Bool
  session_token : String
  inserted_at : String
  last_activity : String
  is_active : Bool
  user_agent : String
  ip_address : String
  extension_version : String
  browser_fingerprint : String
  data : Option String
  deriving DecidableEq

/-- Environment for one run of the coordinator: the current time, the
outcome each remote endpoint would produce if called, whether a
chrome.storage.local.set on `authData` reports `lastError`, and the token
`generateSessionToken` would produce if invoked. -/
structure Env where
  now : Int
  isAuthOutcome : FetchOutcome IsAuthBody
  authDataOutcome : FetchOutcome AuthDataBody
  validateOutcome : FetchOutcome ValidateBody
  deleteOutcome : FetchOutcome String
  storageSetFails : Bool
  freshSessionToken : String
  deriving DecidableEq

/-! ## Storage operations (background.js 189-224, 296-351, 374-386) -/

/-- `getAuthData`: the stored record, or the default when absent. -/
def getAuthData (s : Store) : AuthData := s.authData.getD defaultAuthData

/-- `clearAuthData` (background.js 346-351): stops the revalidation timer
and removes the `authData` key. -/
def clearAuthData (st : SvcState) : SvcState :=
  { store := { st.store with authData := none }, timerRunning := false }

/-- `clearSessionData` (background.js 220-224): removes the
`sessionToken` and `browserSessionData` keys. -/
def clearSessionData (st : SvcState) : SvcState :=
  { st with store := { st.store with sessionToken := none, browserSessionData := none } }

/-- `stopSessionValidation` (background.js 269-274). -/
def stopSessionValidation (st : SvcState) : SvcState :=
  { st with timerRunning := false }

/-- Successful `setAuthData` write (background.js 314-337): stores the
record and, when it carries a token, starts the revalidation timer. -/
def setAuthDataOk (st : SvcState) (d : AuthData) : SvcState :=
  { store := { st.store with authData := some d },
    timerRunning := if d.auth_token = "" then st.timerRunning else true }

/-- `setAuthData`: rejects (leaving the store as it was) when the
storage write reports `lastError`, otherwise writes and resolves. -/
def setAuthData (st : SvcState) (env : Env) (d : AuthData) : Except Unit SvcState :=
  if env.storageSetFails then Except.error () else Except.ok (setAuthDataOk st d)

/-- `getSessionToken` (background.js 374-386): returns the stored token,
or generates a fresh one and persists it. -/
def getSessionToken (st : SvcState) (env : Env) : String × SvcState :=
  match st.store.sessionToken with
  | some tok => (tok, st)
  | none =>
    (env.freshSessionToken,
      { st with store := { st.store with sessionToken := some env.freshSessionToken } })

/-- `updateBrowserSessionData` (background.js 211-218): spread-merge of
the update into the stored object (`{}` when absent). -/
def updateBrowserSessionData (st : SvcState) (u : BrowserSessionData) : SvcState :=
  let cur := st.store.browserSessionData.getD {}
  { st with store := { st.store with browserSessionData := some (cur.merge u) } }

/-! ## Authenticated requests -/

/-- Errors thrown by `makeAuthenticatedRequest`. -/
inductive ReqError where
  | notAuthenticated
  | authExpired
  | network
  deriving DecidableEq

/-- `makeAuthenticatedRequest` of the background service (background.js
395-422).  Throws when no token is stored; on a 401 response it clears
BOTH the auth record and the session keys before throwing; otherwise it
returns the response.  The third component counts fetches issued. -/
def makeAuthenticatedRequest {β : Type} (st : SvcState) (outcome : FetchOutcome β) :
    Except ReqError (HttpResp β) × SvcState × Nat :=
  let authData := getAuthData st.store
  if authData.auth_token = "" then (Except.error ReqError.notAuthenticated, st, 0)
  else
    match outcome with
    | FetchOutcome.thrown => (Except.error ReqError.network, st, 1)
    | FetchOutcome.resp r =>
      if r.status = 401 then
        (Except.error ReqError.authExpired, clearSessionData (clearAuthData st), 1)
      else (Except.ok r, st, 1)

/-- `clearAuthData` of the popup/options copy (part_001 429-433): it only
removes the `authData` key (that APIService has no revalidation timer, so
the timer flag is untouched). -/
def clearAuthDataP1 (st : SvcState) : SvcState :=
  { st with store := { st.store with authData := none } }

/-- `makeAuthenticatedRequest` of the popup/options copy (part_001
514-539).  Identical to the background version except that on a 401
response it clears ONLY the auth record, leaving `sessionToken` and
`browserSessionData` in place. -/
def makeAuthenticatedRequestP1 {β : Type} (st : SvcState) (outcome : FetchOutcome β) :
    Except ReqError (HttpResp β) × SvcState × Nat :=
  let authData := getAuthData st.store
  if authData.auth_token = "" then (Except.error ReqError.notAuthenticated, st, 0)
  else
    match outcome with
    | FetchOutcome.thrown => (Except.error ReqError.network, st, 1)
    | FetchOutcome.resp r =>
      if r.status = 401 then
        (Except.error ReqError.authExpired, clearAuthDataP1 st, 1)
      else (Except.ok r, st, 1)

/-! ## Browser session validation (background.js 144-187) -/

/-- The update object built at background.js 157-167 from the parsed
validate result. -/
def sessionUpdateOf (b : ValidateBody) : BrowserSessionData :=
  { authenticated := some true,
    session_token := some b.session_token,
    created_at := some b.inserted_at,
    last_activity := some b.last_activity,
    is_active := some b.is_active,
    user_agent := some b.user_agent,
    ip_address := some b.ip_address,
    extension_version := some b.extension_version,
    browser_fingerprint := some b.browser_fingerprint }

/-- `validateOrCreateBrowserSession` (background.js 144-187).
`getBrowserSessionData` first fetches/creates the session token and
resolves the public IP (one fetch, never throwing).  The validate call
goes through `makeAuthenticatedRequest`; any throw is caught and `null`
returned.  On an ok response the code branches on
`response.authenticated` — a property the fetch Response does not have —
so the clearing branch (session data, then auth data) runs on every ok
response; on a non-ok response it returns `null`.  Returns (returned
value, state, fetches issued). -/
def validateOrCreateBrowserSession (st : SvcState) (env : Env) :
    Option String × SvcState × Nat :=
  let tokStep := getSessionToken st env
  let ipCalls := 1
  match makeAuthenticatedRequest tokStep.2 env.validateOutcome with
  | (Except.error _, st1, n) => (none, st1, ipCalls + n)
  | (Except.ok r, st1, n) =>
    if r.ok then
      if r.authenticatedProp.getD false then
        (r.body.data, updateBrowserSessionData st1 (sessionUpdateOf r.body), ipCalls + n)
      else
        (none, clearAuthData (clearSessionData st1), ipCalls + n)
    else
      (none, st1, ipCalls + n)

/-! ## Authentication check (background.js 42-141) -/

/-- Reasons of the `{authenticated:false, reason}` results.  `no_token`
and `token_expired` are produced only by the popup copy's
`checkAuthentication`; the remaining five appear in `_performAuthCheck`. -/
inductive AuthReason where
  | no_token
  | token_expired
  | invalid_token
  | server_error
  | network_error
  | storage_error
  | unknown
  deriving DecidableEq

/-- Result of an authentication check: `{authenticated:true, user}` or
`{authenticated:false, reason}`. -/
inductive AuthResult where
  | yes (user : String)
  | no (reason : AuthReason)
  deriving DecidableEq

/-- Output of `_performAuthCheck`: its resolved value, the service state
when it resolves, the number of fetches issued before it resolves, and
whether a fire-and-forget `validateOrCreateBrowserSession` was started
(the un-awaited call on the fast path, whose effects land only after the
check has resolved). -/
structure CheckOutput where
  result : AuthResult
  state : SvcState
  networkCalls : Nat
  asyncValidateTriggered : Bool
  deriving DecidableEq

/-- The server round-trip block of `_performAuthCheck` (background.js
62-136, the body of the `if` at line 61): call `is_authenticated`; on a
thrown fetch report `network_error` (the catch at line 133, leaving
storage untouched); on a non-ok response clear auth and session and
report `server_error`; on ok with `authenticated:false` clear auth and
session and report `invalid_token`; on ok with `authenticated:true`
either fetch and persist full auth data (no local token, lines 78-116) or
refresh `last_check` (token present, lines 117-122), awaiting session
validation either way.  A rejection of the un-protected `updateAuthData`
at line 119 propagates to the catch at line 133 and is reported as
`network_error`. -/
def slowAuthCheck (st : SvcState) (env : Env) : CheckOutput :=
  let authData := getAuthData st.store
  let hasToken : Bool := authData.auth_token != ""
  match env.isAuthOutcome with
    | FetchOutcome.thrown =>
      { result := AuthResult.no AuthReason.network_error, state := st,
        networkCalls := 1, asyncValidateTriggered := false }
    | FetchOutcome.resp r =>
      if r.ok then
        if r.body.authenticated then
          if !hasToken then
            match env.authDataOutcome with
            | FetchOutcome.thrown =>
              { result := AuthResult.no AuthReason.network_error, state := st,
                networkCalls := 2, asyncValidateTriggered := false }
            | FetchOutcome.resp r2 =>
              if r2.ok then
                match setAuthData st env
                    { auth_token := r2.body.auth_token, user_id := r2.body.user_id,
                      expires_at := r2.body.expires_at, is_authenticated := true,
                      last_check := some env.now, username := r2.body.username } with
                | Except.error _ =>
                  { result := AuthResult.no AuthReason.storage_error, state := st,
                    networkCalls := 2, asyncValidateTriggered := false }
                | Except.ok st1 =>
                  let v := validateOrCreateBrowserSession st1 env
                  { result := AuthResult.yes r.body.user, state := v.2.1,
                    networkCalls := 2 + v.2.2, asyncValidateTriggered := false }
              else
                { result := AuthResult.no AuthReason.server_error, state := st,
                  networkCalls := 2, asyncValidateTriggered := false }
          else
            match setAuthData st env { authData with last_check := some env.now } with
            | Except.error _ =>
              { result := AuthResult.no AuthReason.network_error, state := st,
                networkCalls := 1, asyncValidateTriggered := false }
            | Except.ok st1 =>
              let v := validateOrCreateBrowserSession st1 env
              { result := AuthResult.yes r.body.user, state := v.2.1,
                networkCalls := 1 + v.2.2, asyncValidateTriggered := false }
        else
          { result := AuthResult.no AuthReason.invalid_token,
            state := clearSessionData (clearAuthData st),
            networkCalls := 1, asyncValidateTriggered := false }
      else
        { result := AuthResult.no AuthReason.server_error,
          state := clearSessionData (clearAuthData st),
          networkCalls := 1, asyncValidateTriggered := false }

/-- `_performAuthCheck` (background.js 42-141).  Fast path (line 54):
token present, expiry present and in the future — resolve authenticated
with no fetch, triggering `validateOrCreateBrowserSession` un-awaited.
Server path (line 61): token missing, or expiry present and passed —
`slowAuthCheck`.  A record with a token but no expiry satisfies neither
guard and falls through to the final `unknown` return (lines 139-140). -/
def performAuthCheck (st : SvcState) (env : Env) : CheckOutput :=
  let authData := getAuthData st.store
  let hasToken : Bool := authData.auth_token != ""
  let hasExpiration : Bool := authData.expires_at.isSome
  let isNotExpired : Bool :=
    match authData.expires_at with
    | some t => decide (env.now < t)
    | none => false
  if hasToken && hasExpiration && isNotExpired then
    { result := AuthResult.yes authData.user_id, state := st,
      networkCalls := 0, asyncValidateTriggered := true }
  else if !hasToken || (match authData.expires_at with
      | some t => decide (t ≤ env.now)
      | none => false) then
    slowAuthCheck st env
  else
    { result := AuthResult.no AuthReason.unknown, state := st,
      networkCalls := 0, asyncValidateTriggered := false }

/-! ## Logout (background.js 277-293) -/

/-- `logout`: best-effort DELETE of the remote session record (any throw
of `makeAuthenticatedRequest` — not-authenticated, 401, or network — is
caught and ignored), then unconditionally `clearAuthData`,
`clearSessionData`, `stopSessionValidation`. -/
def logout (st : SvcState) (env : Env) : SvcState :=
  let tokStep := getSessionToken st env
  let req := makeAuthenticatedRequest tokStep.2 env.deleteOutcome
  stopSessionValidation (clearSessionData (clearAuthData req.2.1))

/-! ## Concrete sample inputs used by witnesses and counterexamples -/

/-- A stored auth record with token `t1`, user `u1`, and the given
expiry. -/
def sampleAuth (exp : Option Int) : AuthData :=
  { auth_token := "t1", user_id := "u1", expires_at := exp,
    is_authenticated := true, last_check := none, username := "alice" }

/-- A fully populated storage with the given expiry on the auth record. -/
def sampleState (exp : Option Int) : SvcState :=
  { store :=
      { authData := some (sampleAuth exp), sessionToken := some "sess-1",
        browserSessionData := some {} },
    timerRunning := true }

/-- Baseline environment: time 2000, every endpoint unreachable
(throws), storage writes succeed. -/
def baseEnv : Env :=
  { now := 2000, isAuthOutcome := FetchOutcome.thrown,
    authDataOutcome := FetchOutcome.thrown, validateOutcome := FetchOutcome.thrown,
    deleteOutcome := FetchOutcome.thrown, storageSetFails := false,
    freshSessionToken := "fresh-1" }

/-- Environment whose is_authenticated endpoint affirms authentication. -/
def envServerYes : Env :=
  { baseEnv with
    isAuthOutcome := FetchOutcome.resp
      { status := 200, body := { authenticated := true, user := "u1" } } }

/-- Environment whose is_authenticated endpoint denies authentication
(HTTP 200, authenticated:false). -/
def envServerNo : Env :=
  { baseEnv with
    isAuthOutcome := FetchOutcome.resp
      { status := 200, body := { authenticated := false, user := "" } } }

/-- A successful sessions/validate body with `authenticated: true`. -/
def validateBodySample : ValidateBody :=
  { authenticated := true, session_token := "srv-sess", inserted_at := "2024-01-01",
    last_activity := "2024-01-02", is_active := true, user_agent := "ua",
    ip_address := "1.2.3.4", extension_version := "1.0.0",
    browser_fingerprint := "fp", data := some "payload" }

/-- Environment whose sessions/validate endpoint answers HTTP 200 with
`authenticated: true` in the body. -/
def envValidateOk : Env :=
  { baseEnv with
    validateOutcome := FetchOutcome.resp { status := 200, body := validateBodySample } }

/-- Storage holding a record with a token but no expiry timestamp. -/
def noExpiryState : SvcState :=
  { store :=
      { authData := some
          { auth_token := "t9", user_id := "u9", expires_at := none,
            is_authenticated := true, last_check := none, username := "bob" },
        sessionToken := some "sess-9", browserSessionData := some {} },
    timerRunning := false }

/-- Storage with no auth record at all. -/
def emptyAuthState : SvcState :=
  { store :=
      { authData := none, sessionToken := some "sess-2",
        browserSessionData := some {} },
    timerRunning := false }

/-! ## Helper lemmas -/

/-- A record with a set `lastCrawledAt` is fresh exactly when its age is
strictly below 24 hours (86400000 ms). -/
theorem isLastCrawledFresh_some_iff (t now : Int) :
    isLastCrawledFresh (some t) now = true ↔ now - t < 86400000 := by
  simp only [isLastCrawledFresh, decide_eq_true_eq]
  rw [div_lt_iff₀ (by norm_num : (0 : ℚ) < 1000 * 60 * 60)]
  constructor
  · intro h
    have h2 : ((now - t : Int) : ℚ) < ((86400000 : Int) : ℚ) := by push_cast; linarith
    exact_mod_cast h2
  · intro h
    have h2 : ((now - t : Int) : ℚ) < ((86400000 : Int) : ℚ) := by exact_mod_cast h
    push_cast at h2
    linarith

/-- Calls arriving while a check is in flight only append to the queue
in arrival order and start no further underlying check. -/
theorem arriveAll_busy (cs : List Nat) : ∀ q : List Nat,
    arriveAll { authCheckInProgress := true, authCheckQueue := q } cs =
      ({ authCheckInProgress := true, authCheckQueue := q ++ cs }, 0) := by
  induction cs with
  | nil => intro q; simp [arriveAll]
  | cons c cs ih =>
    intro q
    simp [arriveAll, authCallStep, ih (q ++ [c])]

/-- Fast-path evaluation of `_performAuthCheck`: token present, expiry
present and in the future. -/
theorem performAuthCheck_fast (st : SvcState) (env : Env) (t : Int)
    (htok : (getAuthData st.store).auth_token ≠ "")
    (hexp : (getAuthData st.store).expires_at = some t)
    (hfut : env.now < t) :
    performAuthCheck st env =
      { result := AuthResult.yes (getAuthData st.store).user_id, state := st,
        networkCalls := 0, asyncValidateTriggered := true } := by
  simp [performAuthCheck, hexp, htok, hfut]

/-- Under the server-path guard (token missing, or expiry present and
passed), `_performAuthCheck` runs the server round-trip block. -/
theorem performAuthCheck_eq_slow (st : SvcState) (env : Env)
    (h : (getAuthData st.store).auth_token = "" ∨
      ∃ t, (getAuthData st.store).expires_at = some t ∧ t ≤ env.now) :
    performAuthCheck st env = slowAuthCheck st env := by
  rcases h with htok | ⟨t, hexp, hle⟩
  · simp [performAuthCheck, htok]
  · have hnlt : ¬ env.now < t := not_lt.mpr hle
    by_cases htok : (getAuthData st.store).auth_token = "" <;>
      simp [performAuthCheck, hexp, htok, hnlt, hle]

/-- The server round-trip never starts a fire-and-forget session
validation (only the fast path does). -/
theorem slowAuthCheck_async (st : SvcState) (env : Env) :
    (slowAuthCheck st env).asyncValidateTriggered = false := by
  simp only [slowAuthCheck]
  repeat' split
  all_goals rfl

/-- The server round-trip never reports reason `unknown`. -/
theorem slowAuthCheck_ne_unknown (st : SvcState) (env : Env) :
    (slowAuthCheck st env).result ≠ AuthResult.no AuthReason.unknown := by
  simp only [slowAuthCheck]
  repeat' split
  all_goals simp

/-- Evaluation of the server round-trip when the is_authenticated fetch
throws: `network_error`, storage untouched, one fetch issued. -/
theorem slowAuthCheck_thrown (st : SvcState) (env : Env)
    (h : env.isAuthOutcome = FetchOutcome.thrown) :
    slowAuthCheck st env =
      { result := AuthResult.no AuthReason.network_error, state := st,
        networkCalls := 1, asyncValidateTriggered := false } := by
  simp [slowAuthCheck, h]

/-- Evaluation of the server round-trip on a non-ok response:
`server_error` after clearing auth and session data. -/
theorem slowAuthCheck_nonOk (st : SvcState) (env : Env) (r : HttpResp IsAuthBody)
    (h : env.isAuthOutcome = FetchOutcome.resp r) (hok : r.ok = false) :
    slowAuthCheck st env =
      { result := AuthResult.no AuthReason.server_error,
        state := clearSessionData (clearAuthData st),
        networkCalls := 1, asyncValidateTriggered := false } := by
  simp [slowAuthCheck, h, hok]

/-- Evaluation of the server round-trip on an ok response denying
authentication: `invalid_token` after clearing auth and session data. -/
theorem slowAuthCheck_invalid (st : SvcState) (env : Env) (r : HttpResp IsAuthBody)
    (h : env.isAuthOutcome = FetchOutcome.resp r) (hok : r.ok = true)
    (hauth : r.body.authenticated = false) :
    slowAuthCheck st env =
      { result := AuthResult.no AuthReason.invalid_token,
        state := clearSessionData (clearAuthData st),
        networkCalls := 1, asyncValidateTriggered := false } := by
  simp [slowAuthCheck, h, hok, hauth]

/-- When the server round-trip resolves authenticated, at least one
fetch was issued and the is_authenticated endpoint answered ok with
`authenticated:true`. -/
theorem slowAuthCheck_yes (st : SvcState) (env : Env) (u : String)
    (h : (slowAuthCheck st env).result = AuthResult.yes u) :
    1 ≤ (slowAuthCheck st env).networkCalls ∧
    ∃ r, env.isAuthOutcome = FetchOutcome.resp r ∧ r.ok = true ∧
      r.body.authenticated = true := by
  rcases hio : env.isAuthOutcome with r | _
  · by_cases hok : r.ok = true
    · by_cases hauth : r.body.authenticated = true
      · refine ⟨?_, r, rfl, hok, hauth⟩
        by_cases htok : (getAuthData st.store).auth_token = ""
        · rcases hio2 : env.authDataOutcome with r2 | _
          · by_cases hok2 : r2.ok = true
            · by_cases hsf : env.storageSetFails <;>
                simp [slowAuthCheck, hio, hok, hauth, htok, hio2, hok2, hsf,
                  setAuthData] <;> omega
            · simp [slowAuthCheck, hio, hok, hauth, htok, hio2, hok2]
          · simp [slowAuthCheck, hio, hok, hauth, htok, hio2]
        · by_cases hsf : env.storageSetFails <;>
            simp [slowAuthCheck, hio, hok, hauth, htok, hsf, setAuthData]
      · rw [slowAuthCheck_invalid st env r hio hok (by simpa using hauth)] at h
        exact absurd h (by simp)
    · rw [slowAuthCheck_nonOk st env r hio (by simpa using hok)] at h
      exact absurd h (by simp)
  · rw [slowAuthCheck_thrown st env hio] at h
    exact absurd h (by simp)

/-! ## Claim theorems -/

/-- C9: `isLastCrawledFresh` returns false when `lastCrawledAt` is
unset, true at age 23h59m, false at age 24h01m, and in general a set
record is fresh exactly when its age is strictly less than 24 hours. -/
theorem isLastCrawledFresh_spec :
    (∀ now : Int, isLastCrawledFresh none now = false) ∧
    (∀ now : Int, isLastCrawledFresh (some (now - 86340000)) now = true) ∧
    (∀ now : Int, isLastCrawledFresh (some (now - 86460000)) now = false) ∧
    (∀ t now : Int, isLastCrawledFresh (some t) now = true ↔ now - t < 86400000) := by
  refine ⟨fun _ => rfl, fun now => ?_, fun now => ?_,
    fun t now => isLastCrawledFresh_some_iff t now⟩
  · rw [isLastCrawledFresh_some_iff]; omega
  · cases h : isLastCrawledFresh (some (now - 86460000)) now
    · rfl
    · exact absurd ((isLastCrawledFresh_some_iff _ _).mp h) (by omega)

/-- C1: when callers 1..n+1 all invoke `checkAuthentication` before the
first resolves and the in-flight check then completes with result `r`,
exactly one underlying `_performAuthCheck` is started, the queued callers
2..n+1 are resolved in FIFO order each with the same result `r`, and the
initiating caller resolves with `r` as well. -/
theorem checkAuthentication_single_flight {α : Type} (n : Nat) (r : α) :
    runConcurrentChecks (n + 1) r =
      (1, (List.range' 2 n).map (fun c => (c, r)), (1, r)) := by
  have h : List.range' 1 (n + 1) = 1 :: List.range' 2 n := List.range'_succ 1 n 1
  simp [runConcurrentChecks, h, arriveAll, authCallStep, arriveAll_busy,
    authCompleteStep]

/-- C7: `logout` unconditionally removes the `authData`, `sessionToken`
and `browserSessionData` storage keys and stops the periodic revalidation
timer, for every starting state and every outcome (success, HTTP error,
401, network exception, or missing token) of the remote DELETE. -/
theorem logout_clears_local_state (st : SvcState) (env : Env) :
    (logout st env).store.authData = none ∧
    (logout st env).store.sessionToken = none ∧
    (logout st env).store.browserSessionData = none ∧
    (logout st env).timerRunning = false :=
  ⟨rfl, rfl, rfl, rfl⟩

/-- C3 (amended): for every call through the background service's
`makeAuthenticatedRequest` that reaches the network (a token is stored),
a 401 response removes both the `authData` key and the session keys
(`sessionToken`, `browserSessionData`) before the call rejects with the
authentication-expired error.  (The duplicate copy in the popup/options
bundle removes only `authData`; see the counterexample.) -/
theorem makeAuthenticatedRequest_401_clears_all {β : Type} (st : SvcState) (r : HttpResp β)
    (hstatus : r.status = 401) (htok : (getAuthData st.store).auth_token ≠ "") :
    makeAuthenticatedRequest st (FetchOutcome.resp r) =
      (Except.error ReqError.authExpired, clearSessionData (clearAuthData st), 1) ∧
    (makeAuthenticatedRequest st (FetchOutcome.resp r)).2.1.store.authData = none ∧
    (makeAuthenticatedRequest st (FetchOutcome.resp r)).2.1.store.sessionToken = none ∧
    (makeAuthenticatedRequest st (FetchOutcome.resp r)).2.1.store.browserSessionData = none := by
  have h : makeAuthenticatedRequest st (FetchOutcome.resp r) =
      (Except.error ReqError.authExpired, clearSessionData (clearAuthData st), 1) := by
    simp [makeAuthenticatedRequest, htok, hstatus]
  exact ⟨h, by rw [h]; rfl, by rw [h]; rfl, by rw [h]; rfl⟩

/-- Witness for C3's theorem at a concrete populated storage and a
concrete 401 response. -/
theorem makeAuthenticatedRequest_401_clears_all_witness :
    makeAuthenticatedRequest (sampleState (some 5000))
        (FetchOutcome.resp ({ status := 401, body := "e" } : HttpResp String)) =
      (Except.error ReqError.authExpired,
        clearSessionData (clearAuthData (sampleState (some 5000))), 1) :=
  (makeAuthenticatedRequest_401_clears_all (sampleState (some 5000))
    { status := 401, body := "e" } rfl (by decide)).1

/-- C3 counterexample: a 401 received through the popup/options copy of
`makeAuthenticatedRequest` (part_001 514-539) removes `authData` but
leaves `sessionToken` and `browserSessionData` in storage, so the claim
does not hold of every `makeAuthenticatedRequest` in the repository. -/
theorem makeAuthenticatedRequestP1_401_keeps_session :
    (makeAuthenticatedRequestP1 (sampleState (some 5000))
        (FetchOutcome.resp ({ status := 401, body := "e" } : HttpResp String))).1 =
      Except.error ReqError.authExpired ∧
    (makeAuthenticatedRequestP1 (sampleState (some 5000))
        (FetchOutcome.resp ({ status := 401, body := "e" } : HttpResp String))).2.1.store.authData = none ∧
    (makeAuthenticatedRequestP1 (sampleState (some 5000))
        (FetchOutcome.resp ({ status := 401, body := "e" } : HttpResp String))).2.1.store.sessionToken = some "sess-1" ∧
    (makeAuthenticatedRequestP1 (sampleState (some 5000))
        (FetchOutcome.resp ({ status := 401, body := "e" } : HttpResp String))).2.1.store.browserSessionData = some {} := by
  refine ⟨rfl, rfl, rfl, rfl⟩

/-- C4: with a stored token whose expiry lies in the future,
`checkAuthentication` resolves `{authenticated:true, user}` on the local
fast path: the storage is untouched, no network call is made before the
check resolves, and session validation is triggered un-awaited. -/
theorem performAuthCheck_fast_path (st : SvcState) (env : Env) (t : Int)
    (htok : (getAuthData st.store).auth_token ≠ "")
    (hexp : (getAuthData st.store).expires_at = some t)
    (hfut : env.now < t) :
    performAuthCheck st env =
      { result := AuthResult.yes (getAuthData st.store).user_id, state := st,
        networkCalls := 0, asyncValidateTriggered := true } :=
  performAuthCheck_fast st env t htok hexp hfut

/-- Witness for C4's theorem: token `t1` expiring at 5000 with the clock
at 2000 resolves authenticated as user `u1` with zero network calls. -/
theorem performAuthCheck_fast_path_witness :
    performAuthCheck (sampleState (some 5000)) baseEnv =
      { result := AuthResult.yes "u1", state := sampleState (some 5000),
        networkCalls := 0, asyncValidateTriggered := true } := by
  rw [performAuthCheck_fast_path (sampleState (some 5000)) baseEnv 5000
    (by decide) (by decide) (by decide)]
  decide

/-- C2 counterexample: with stored token `t1` expired at 1000 and the
clock at 2000, a server whose is_authenticated endpoint still affirms
authentication (the fetch carries cookies alongside the stale bearer
token) makes `checkAuthentication` resolve `{authenticated:true}` — so
the claim that an expired record never yields authenticated:true is
false as stated. -/
theorem performAuthCheck_expired_can_authenticate :
    (getAuthData (sampleState (some 1000)).store).auth_token = "t1" ∧
    (getAuthData (sampleState (some 1000)).store).expires_at = some 1000 ∧
    envServerYes.now = 2000 ∧
    (performAuthCheck (sampleState (some 1000)) envServerYes).result =
      AuthResult.yes "u1" := by
  refine ⟨rfl, rfl, rfl, by decide⟩

/-- C2 (amended): a persisted record whose expiry lies in the past is
never accepted on the local fast path — the fast path's fire-and-forget
session validation never triggers, and the check can only resolve
authenticated after at least one network call, with the server's
is_authenticated endpoint answering ok with `authenticated:true`. -/
theorem performAuthCheck_expired_never_fast (st : SvcState) (env : Env) (t : Int)
    (hexp : (getAuthData st.store).expires_at = some t)
    (hle : t ≤ env.now) :
    (performAuthCheck st env).asyncValidateTriggered = false ∧
    (∀ u, (performAuthCheck st env).result = AuthResult.yes u →
      1 ≤ (performAuthCheck st env).networkCalls ∧
      ∃ r, env.isAuthOutcome = FetchOutcome.resp r ∧ r.ok = true ∧
        r.body.authenticated = true) := by
  have heq := performAuthCheck_eq_slow st env (Or.inr ⟨t, hexp, hle⟩)
  rw [heq]
  exact ⟨slowAuthCheck_async st env, fun u h => slowAuthCheck_yes st env u h⟩

/-- Witness for C2's amended theorem at the expired sample record. -/
theorem performAuthCheck_expired_never_fast_witness :
    (performAuthCheck (sampleState (some 1000)) envServerYes).asyncValidateTriggered = false :=
  (performAuthCheck_expired_never_fast (sampleState (some 1000)) envServerYes 1000
    rfl (by decide)).1

/-- C5: with the stored token expired and the server answering the
is_authenticated call ok with `authenticated:false`,
`checkAuthentication` resolves `{authenticated:false,
reason:invalid_token}` and storage afterwards holds neither `authData`
nor the session keys. -/
theorem performAuthCheck_expired_invalid_token (st : SvcState) (env : Env) (t : Int)
    (r : HttpResp IsAuthBody)
    (hexp : (getAuthData st.store).expires_at = some t)
    (hle : t ≤ env.now)
    (hresp : env.isAuthOutcome = FetchOutcome.resp r)
    (hok : r.ok = true)
    (hauth : r.body.authenticated = false) :
    performAuthCheck st env =
      { result := AuthResult.no AuthReason.invalid_token,
        state := clearSessionData (clearAuthData st),
        networkCalls := 1, asyncValidateTriggered := false } ∧
    (performAuthCheck st env).state.store.authData = none ∧
    (performAuthCheck st env).state.store.sessionToken = none ∧
    (performAuthCheck st env).state.store.browserSessionData = none := by
  have heq := (performAuthCheck_eq_slow st env (Or.inr ⟨t, hexp, hle⟩)).trans
    (slowAuthCheck_invalid st env r hresp hok hauth)
  exact ⟨heq, by rw [heq]; rfl, by rw [heq]; rfl, by rw [heq]; rfl⟩

/-- Witness for C5's theorem: the expired sample record against a
denying server. -/
theorem performAuthCheck_expired_invalid_token_witness :
    performAuthCheck (sampleState (some 1000)) envServerNo =
      { result := AuthResult.no AuthReason.invalid_token,
        state := clearSessionData (clearAuthData (sampleState (some 1000))),
        networkCalls := 1, asyncValidateTriggered := false } :=
  (performAuthCheck_expired_invalid_token (sampleState (some 1000)) envServerNo 1000
    { status := 200, body := { authenticated := false, user := "" } }
    rfl (by decide) rfl rfl rfl).1

/-- C6 (code bug): the sessions/validate endpoint answers HTTP 200 with
`authenticated:true` in the parsed body, yet
`validateOrCreateBrowserSession` returns null and clears the session
keys and the auth record: background.js 156 tests
`response.authenticated` — a property the fetch Response object does not
carry — instead of `result.authenticated`, so the implicit-logout branch
runs on every ok response and the branch persisting the canonical
session fields is dead code. -/
theorem validateOrCreateBrowserSession_ok_clears :
    envValidateOk.validateOutcome =
      FetchOutcome.resp { status := 200, body := validateBodySample } ∧
    validateBodySample.authenticated = true ∧
    validateOrCreateBrowserSession (sampleState (some 5000)) envValidateOk =
      (none, clearAuthData (clearSessionData (sampleState (some 5000))), 2) ∧
    (validateOrCreateBrowserSession (sampleState (some 5000)) envValidateOk).2.1.store.browserSessionData = none ∧
    (validateOrCreateBrowserSession (sampleState (some 5000)) envValidateOk).2.1.store.sessionToken = none ∧
    (validateOrCreateBrowserSession (sampleState (some 5000)) envValidateOk).2.1.store.authData = none := by
  refine ⟨rfl, rfl, by decide, by decide, by decide, by decide⟩

/-- C8 counterexample: a stored record with token `t9` and no
`expires_at` satisfies neither the fast-path guard nor the server-path
guard, so `_performAuthCheck` reaches the final fallback and resolves
with reason `unknown` — the branch is reachable. -/
theorem performAuthCheck_unknown_reachable :
    (getAuthData noExpiryState.store).auth_token = "t9" ∧
    (getAuthData noExpiryState.store).expires_at = none ∧
    (performAuthCheck noExpiryState baseEnv).result =
      AuthResult.no AuthReason.unknown := by
  refine ⟨rfl, rfl, by decide⟩

/-- C8 (amended): the `unknown` fallback of `_performAuthCheck` is
reached exactly for stored records that carry a token but no expiry
timestamp; for every other record — and whatever the server or storage
does — the resolved reason is never `unknown`. -/
theorem performAuthCheck_unknown_iff (st : SvcState) (env : Env) :
    (performAuthCheck st env).result = AuthResult.no AuthReason.unknown ↔
      ((getAuthData st.store).auth_token ≠ "" ∧
        (getAuthData st.store).expires_at = none) := by
  constructor
  · intro h
    rcases hexp : (getAuthData st.store).expires_at with _ | t
    · by_cases htok : (getAuthData st.store).auth_token = ""
      · rw [performAuthCheck_eq_slow st env (Or.inl htok)] at h
        exact absurd h (slowAuthCheck_ne_unknown st env)
      · exact ⟨htok, rfl⟩
    · by_cases htok : (getAuthData st.store).auth_token = ""
      · rw [performAuthCheck_eq_slow st env (Or.inl htok)] at h
        exact absurd h (slowAuthCheck_ne_unknown st env)
      · by_cases hlt : env.now < t
        · rw [performAuthCheck_fast st env t htok hexp hlt] at h
          exact absurd h (by simp)
        · rw [performAuthCheck_eq_slow st env
            (Or.inr ⟨t, hexp, not_lt.mp hlt⟩)] at h
          exact absurd h (slowAuthCheck_ne_unknown st env)
  · rintro ⟨htok, hexp⟩
    simp [performAuthCheck, hexp, htok]

/-- C10: whenever the server path is taken (token missing, or expiry
present and passed) and the fetch to is_authenticated throws,
`checkAuthentication` resolves `{authenticated:false,
reason:network_error}` with the entire service state — in particular the
`authData`, `sessionToken` and `browserSessionData` keys — unchanged;
whereas on a non-ok HTTP response all three keys are cleared. -/
theorem performAuthCheck_network_exception (st : SvcState) (env : Env)
    (hslow : (getAuthData st.store).auth_token = "" ∨
      ∃ t, (getAuthData st.store).expires_at = some t ∧ t ≤ env.now) :
    (env.isAuthOutcome = FetchOutcome.thrown →
      performAuthCheck st env =
        { result := AuthResult.no AuthReason.network_error, state := st,
          networkCalls := 1, asyncValidateTriggered := false }) ∧
    (∀ r, env.isAuthOutcome = FetchOutcome.resp r → r.ok = false →
      (performAuthCheck st env).state.store.authData = none ∧
      (performAuthCheck st env).state.store.sessionToken = none ∧
      (performAuthCheck st env).state.store.browserSessionData = none) := by
  have heq := performAuthCheck_eq_slow st env hslow
  constructor
  · intro h
    rw [heq, slowAuthCheck_thrown st env h]
  · intro r hresp hok
    rw [heq, slowAuthCheck_nonOk st env r hresp hok]
    exact ⟨rfl, rfl, rfl⟩

/-- Witness for C10's theorem: no stored record and an unreachable
server. -/
theorem performAuthCheck_network_exception_witness :
    performAuthCheck emptyAuthState baseEnv =
      { result := AuthResult.no AuthReason.network_error, state := emptyAuthState,
        networkCalls := 1, asyncValidateTriggered := false } :=
  (performAuthCheck_network_exception emptyAuthState baseEnv (Or.inl rfl)).1 rfl

end SodEx

